import Mathlib

/-!
Verification of the schema-conversion core of this repository
(`src/main.py`). The program converts a data-model class (a pydantic
model) into a JSON-Schema document for a chat-completion API's
structured-output mode. The one in-repo transformation is
`pydantic_to_so_openai_schema` (src/main.py lines 48-79); field
introspection itself (`model_json_schema`) is provided by the pydantic
library and is modelled here from the specification's description of the
introspection step.
-/

set_option autoImplicit false

namespace StructuredOutputs

/-- Dynamically typed JSON values, mirroring the Python dictionaries the
script manipulates. Objects are ordered key/value lists, as Python dicts
preserve insertion order. -/
inductive Json where
  | str  : String → Json
  | bool : Bool → Json
  | num  : Int → Json
  | arr  : List Json → Json
  | obj  : List (String × Json) → Json

/-- A Python dictionary with string keys: an ordered key/value list. -/
abbrev Dict := List (String × Json)

/-- First value bound to key `k`, mirroring Python `d[k]` lookup
(keys in the dicts built here are unique). -/
def dget (k : String) : Dict → Option Json
  | [] => none
  | (k2, v) :: rest => if k = k2 then some v else dget k rest

/-- Python `d.get(k, default)`: the value at `k`, or `default` when the
key is absent. -/
def dictGet (d : Dict) (k : String) (default : Json) : Json :=
  match dget k d with
  | some v => v
  | none => default

/-- The keys of a JSON object, in order; `[]` on non-objects. -/
def Json.objKeys : Json → List String
  | Json.obj kvs => kvs.map Prod.fst
  | _ => []

/-- The value at key `k` of a JSON object, `none` if absent or not an
object. -/
def Json.get? : Json → String → Option Json
  | Json.obj kvs, k => dget k kvs
  | _, _ => none

/-- One declared field of a data model: its name, the JSON type it maps
to, and whether the declaration carries a default value. -/
structure FieldDecl where
  name : String
  jsonType : String
  hasDefault : Bool
deriving DecidableEq, Repr

/-- A model description (spec §3): an ordered list of field declarations
plus an optional declared title. Immutable once defined. -/
structure ModelDescription where
  title : Option String
  fields : List FieldDecl
deriving DecidableEq, Repr

/-- The required field names of a model: the fields declared without a
default, in declaration order (spec §3, ModelDescription). -/
def requiredFields (m : ModelDescription) : List String :=
  (m.fields.filter (fun f => !f.hasDefault)).map FieldDecl.name

/-- Modelled from the spec: the schema-introspection facility used at
src/main.py line 60 (`pydantic_model.model_json_schema()`) is the
pydantic library, not code of this repository. Per spec §4.1 step 1 it
derives `properties` as the field-by-field mapping of field name to
`{type: <json-type>}` and `required` as the list of fields without
defaults; per §4.1 step 3 the dict carries the model's declared `title`
when present. The `properties`/`required` keys are absent when there is
nothing to list (spec §7 and §8 boundary scenario: the introspected
schema of a zero-field model lacks these keys). -/
def model_json_schema (m : ModelDescription) : Dict :=
  (match m.title with
   | some t => [("title", Json.str t)]
   | none   => []) ++
  [("type", Json.str "object")] ++
  (if m.fields.isEmpty then []
   else [("properties",
          Json.obj (m.fields.map
            (fun f => (f.name, Json.obj [("type", Json.str f.jsonType)]))))]) ++
  (if (requiredFields m).isEmpty then []
   else [("required", Json.arr ((requiredFields m).map Json.str))])

/-- The `JSONSchema` wrapper constructed at src/main.py lines 70-74:
a name, the nested schema document, and a strict flag. The name is held
as a JSON value because the Python code passes whatever
`pydantic_schema.get("title", "GeneratedSChema")` returns. -/
structure JSONSchema where
  name : Json
  schema : Json
  strict : Bool

/-- The `ResponseFormatJSONSchema` wrapper constructed at src/main.py
lines 76-78. -/
structure ResponseFormatJSONSchema where
  type : String
  json_schema : JSONSchema

/-- Lines 61-79 of src/main.py, given the already-introspected dict
`pydantic_schema`: build the four-key schema object (`type` constantly
"object", `properties` defaulting to `{}`, `required` defaulting to
`[]`, `additionalProperties` constantly `false`), then wrap it with the
name from `title` (fallback "GeneratedSChema") and `strict := true`,
and finally tag it `type := "json_schema"`. -/
def so_openai_schema_of (pydantic_schema : Dict) : ResponseFormatJSONSchema :=
  let openai_schema : Json := Json.obj
    [ ("type", Json.str "object"),
      ("properties", dictGet pydantic_schema "properties" (Json.obj [])),
      ("required", dictGet pydantic_schema "required" (Json.arr [])),
      ("additionalProperties", Json.bool false) ]
  let openai_json_schema : JSONSchema :=
    { name := dictGet pydantic_schema "title" (Json.str "GeneratedSChema"),
      schema := openai_schema,
      strict := true }
  { type := "json_schema", json_schema := openai_json_schema }

/-- `pydantic_to_so_openai_schema` (src/main.py lines 48-79): introspect
the model (line 60), then reshape (lines 61-79). -/
def pydantic_to_so_openai_schema (pydantic_model : ModelDescription) :
    ResponseFormatJSONSchema :=
  so_openai_schema_of (model_json_schema pydantic_model)

/-- Explicit state-passing translation of the body of
`pydantic_to_so_openai_schema`: the model description is threaded
through every statement of lines 60-79 and returned next to the result,
so that the embedding shows which statements read or write it. Line 60
only reads the model; no later line touches it. -/
def pydantic_to_so_openai_schema_stateful (pydantic_model : ModelDescription) :
    ResponseFormatJSONSchema × ModelDescription :=
  let s0 := pydantic_model
  let pydantic_schema := model_json_schema s0
  let s1 := s0
  let openai_schema : Json := Json.obj
    [ ("type", Json.str "object"),
      ("properties", dictGet pydantic_schema "properties" (Json.obj [])),
      ("required", dictGet pydantic_schema "required" (Json.arr [])),
      ("additionalProperties", Json.bool false) ]
  let s2 := s1
  let openai_json_schema : JSONSchema :=
    { name := dictGet pydantic_schema "title" (Json.str "GeneratedSChema"),
      schema := openai_schema,
      strict := true }
  let s3 := s2
  let response_format_json_schema : ResponseFormatJSONSchema :=
    { type := "json_schema", json_schema := openai_json_schema }
  (response_format_json_schema, s3)

/-- The `Person` model of src/main.py lines 26-38: two string fields,
`full_name` and `date_of_birth`, both without defaults; its declared
title is the class name "Person". -/
def Person : ModelDescription :=
  { title := some "Person",
    fields :=
      [ { name := "full_name", jsonType := "string", hasDefault := false },
        { name := "date_of_birth", jsonType := "string", hasDefault := false } ] }

/-- A model with one defaulted field, used to exercise the
required-field filtering. -/
def PersonWithDefault : ModelDescription :=
  { title := some "PersonWithDefault",
    fields :=
      [ { name := "full_name", jsonType := "string", hasDefault := false },
        { name := "nickname", jsonType := "string", hasDefault := true } ] }

/-! ## Helper lemmas -/

/-- The nested schema of the conversion result, computed uniformly: the
four fixed keys, with `properties` the field-by-field map and `required`
the no-default field names (both reducing to the defaults `{}` / `[]`
exactly when the introspected dict lacks the corresponding key). -/
theorem so_schema_eq (m : ModelDescription) :
    (pydantic_to_so_openai_schema m).json_schema.schema =
      Json.obj
        [ ("type", Json.str "object"),
          ("properties", Json.obj (m.fields.map
             (fun f => (f.name, Json.obj [("type", Json.str f.jsonType)])))),
          ("required", Json.arr ((requiredFields m).map Json.str)),
          ("additionalProperties", Json.bool false) ] := by
  obtain ⟨t, fs⟩ := m
  cases t <;>
    simp only [pydantic_to_so_openai_schema, so_openai_schema_of,
      model_json_schema] <;>
    split <;> split <;>
    simp_all [dictGet, dget, requiredFields, List.isEmpty_iff]

/-- The name the conversion puts in the wrapper is the introspected
title when present. -/
theorem dget_title_model_json_schema (m : ModelDescription) :
    dget "title" (model_json_schema m) = m.title.map Json.str := by
  obtain ⟨t, fs⟩ := m
  cases t <;>
    simp only [model_json_schema] <;>
    split <;> split <;>
    simp [dget]

/-! ## Claim theorems -/

/-- C1: for every model description with fields `f1..fn` and no
defaults, the schema inside the conversion result has `properties`
containing exactly the keys `f1..fn`, and its `required` list equals
`f1..fn` in declaration order. -/
theorem convert_properties_and_required_of_no_defaults
    (m : ModelDescription)
    (h : ∀ f ∈ m.fields, f.hasDefault = false) :
    Json.objKeys
        ((Json.get? (pydantic_to_so_openai_schema m).json_schema.schema
            "properties").getD (Json.obj []))
      = m.fields.map FieldDecl.name ∧
    Json.get? (pydantic_to_so_openai_schema m).json_schema.schema "required"
      = some (Json.arr ((m.fields.map FieldDecl.name).map Json.str)) := by
  have hreq : requiredFields m = m.fields.map FieldDecl.name := by
    unfold requiredFields
    congr 1
    refine List.filter_eq_self.mpr ?_
    intro f hf
    simp [h f hf]
  rw [so_schema_eq, hreq]
  constructor
  · simp [Json.get?, dget, Json.objKeys, List.map_map, Function.comp]
  · simp [Json.get?, dget]

/-- Witness for C1 at the `Person` model. -/
theorem convert_properties_and_required_of_no_defaults_witness :
    Json.objKeys
        ((Json.get? (pydantic_to_so_openai_schema Person).json_schema.schema
            "properties").getD (Json.obj []))
      = Person.fields.map FieldDecl.name ∧
    Json.get? (pydantic_to_so_openai_schema Person).json_schema.schema
        "required"
      = some (Json.arr ((Person.fields.map FieldDecl.name).map Json.str)) :=
  convert_properties_and_required_of_no_defaults Person (by decide)

/-- C2: for every input model description — and indeed for every
introspected dict whatsoever — the schema inside the conversion result
has `additionalProperties = false`; the value is the fixed constant of
src/main.py line 67, never derived from the input. -/
theorem convert_additionalProperties_false :
    (∀ m : ModelDescription,
        Json.get? (pydantic_to_so_openai_schema m).json_schema.schema
          "additionalProperties" = some (Json.bool false)) ∧
    (∀ d : Dict,
        Json.get? (so_openai_schema_of d).json_schema.schema
          "additionalProperties" = some (Json.bool false)) :=
  ⟨fun _ => rfl, fun _ => rfl⟩

/-- C3: on the `Person` model the conversion returns exactly the wrapper
`{type:"json_schema", json_schema:{name:"Person", strict:true,
schema:{type:"object", properties:{full_name:{type:"string"},
date_of_birth:{type:"string"}}, required:["full_name","date_of_birth"],
additionalProperties:false}}}`. -/
theorem convert_Person_eq :
    pydantic_to_so_openai_schema Person =
      { type := "json_schema",
        json_schema :=
          { name := Json.str "Person",
            strict := true,
            schema := Json.obj
              [ ("type", Json.str "object"),
                ("properties", Json.obj
                  [ ("full_name", Json.obj [("type", Json.str "string")]),
                    ("date_of_birth",
                      Json.obj [("type", Json.str "string")]) ]),
                ("required",
                  Json.arr [Json.str "full_name", Json.str "date_of_birth"]),
                ("additionalProperties", Json.bool false) ] } } := rfl

/-- C4: for every input model description — and for every introspected
dict, whatever auxiliary structure it carries — the result's schema is a
well-formed object schema: its top-level `type` is the constant
"object" and extra properties are forbidden. -/
theorem convert_well_formed_object_schema :
    (∀ m : ModelDescription, ∃ props req,
        (pydantic_to_so_openai_schema m).json_schema.schema =
          Json.obj
            [ ("type", Json.str "object"),
              ("properties", props),
              ("required", req),
              ("additionalProperties", Json.bool false) ]) ∧
    (∀ d : Dict, ∃ props req,
        (so_openai_schema_of d).json_schema.schema =
          Json.obj
            [ ("type", Json.str "object"),
              ("properties", props),
              ("required", req),
              ("additionalProperties", Json.bool false) ]) :=
  ⟨fun _ => ⟨_, _, rfl⟩, fun _ => ⟨_, _, rfl⟩⟩

/-- C5: when the introspected schema lacks the `properties` or
`required` keys — as happens for a model description with zero declared
fields — the conversion silently defaults them to `{}` and `[]` and
still returns the well-formed schema (the function is total: no error
path exists). -/
theorem convert_missing_keys_default_empty :
    (∀ d : Dict, dget "properties" d = none → dget "required" d = none →
        (so_openai_schema_of d).json_schema.schema =
          Json.obj
            [ ("type", Json.str "object"),
              ("properties", Json.obj []),
              ("required", Json.arr []),
              ("additionalProperties", Json.bool false) ]) ∧
    (∀ m : ModelDescription, m.fields = [] →
        dget "properties" (model_json_schema m) = none ∧
        dget "required" (model_json_schema m) = none ∧
        (pydantic_to_so_openai_schema m).json_schema.schema =
          Json.obj
            [ ("type", Json.str "object"),
              ("properties", Json.obj []),
              ("required", Json.arr []),
              ("additionalProperties", Json.bool false) ]) := by
  constructor
  · intro d hp hr
    simp [so_openai_schema_of, dictGet, hp, hr]
  · intro m hm
    have hr : requiredFields m = [] := by simp [requiredFields, hm]
    obtain ⟨t, fs⟩ := m
    simp only [ModelDescription.fields] at hm
    subst hm
    refine ⟨?_, ?_, ?_⟩ <;>
      cases t <;>
      simp [model_json_schema, pydantic_to_so_openai_schema,
        so_openai_schema_of, dictGet, dget, requiredFields]

/-- Witness for C5: the empty dict lacks both keys, and the zero-field
untitled model yields the empty well-formed schema. -/
theorem convert_missing_keys_default_empty_witness :
    (so_openai_schema_of []).json_schema.schema =
      Json.obj
        [ ("type", Json.str "object"),
          ("properties", Json.obj []),
          ("required", Json.arr []),
          ("additionalProperties", Json.bool false) ] ∧
    (pydantic_to_so_openai_schema { title := none, fields := [] }).json_schema.schema =
      Json.obj
        [ ("type", Json.str "object"),
          ("properties", Json.obj []),
          ("required", Json.arr []),
          ("additionalProperties", Json.bool false) ] :=
  ⟨convert_missing_keys_default_empty.1 [] rfl rfl,
   (convert_missing_keys_default_empty.2 { title := none, fields := [] } rfl).2.2⟩

/-- C6: for every input model description the wrapper's name is the
model's declared title when present and the fixed fallback string
"GeneratedSChema" when absent, and its strict flag is true. -/
theorem convert_name_and_strict (m : ModelDescription) :
    (pydantic_to_so_openai_schema m).json_schema.name =
      (match m.title with
       | some t => Json.str t
       | none => Json.str "GeneratedSChema") ∧
    (pydantic_to_so_openai_schema m).json_schema.strict = true := by
  constructor
  · have hname : (pydantic_to_so_openai_schema m).json_schema.name =
        dictGet (model_json_schema m) "title" (Json.str "GeneratedSChema") := rfl
    rw [hname, dictGet, dget_title_model_json_schema]
    cases m.title <;> rfl
  · rfl

/-- C7: the conversion is deterministic — two calls on the same model
description yield structurally identical results; the output depends
only on the input. -/
theorem convert_deterministic (m : ModelDescription)
    (firstCall secondCall : ResponseFormatJSONSchema)
    (h1 : firstCall = pydantic_to_so_openai_schema m)
    (h2 : secondCall = pydantic_to_so_openai_schema m) :
    firstCall = secondCall :=
  h1.trans h2.symm

/-- Witness for C7 at the `Person` model. -/
theorem convert_deterministic_witness :
    pydantic_to_so_openai_schema Person = pydantic_to_so_openai_schema Person :=
  convert_deterministic Person
    (pydantic_to_so_openai_schema Person)
    (pydantic_to_so_openai_schema Person) rfl rfl

/-- C8: the conversion does not mutate its input and has no side
effects: in the state-passing translation of its body the model that
comes out of the call is the input itself, and the value returned is
the pure function of the input. -/
theorem convert_pure_no_mutation (m : ModelDescription) :
    (pydantic_to_so_openai_schema_stateful m).2 = m ∧
    (pydantic_to_so_openai_schema_stateful m).1 =
      pydantic_to_so_openai_schema m :=
  ⟨rfl, rfl⟩

/-- C9: the nested schema object of the conversion result has exactly
the four keys type, properties, required, additionalProperties — in
that order — for every model description and for every introspected
dict; any other top-level key of the introspected dict (a title, an
auxiliary definition table, ...) is absent from the output schema. -/
theorem convert_schema_exactly_four_keys :
    (∀ m : ModelDescription,
        Json.objKeys (pydantic_to_so_openai_schema m).json_schema.schema =
          ["type", "properties", "required", "additionalProperties"]) ∧
    (∀ d : Dict,
        Json.objKeys (so_openai_schema_of d).json_schema.schema =
          ["type", "properties", "required", "additionalProperties"]) ∧
    (∀ (d : Dict) (k : String),
        k ∉ (["type", "properties", "required", "additionalProperties"] :
              List String) →
        Json.get? (so_openai_schema_of d).json_schema.schema k = none) := by
  refine ⟨fun _ => rfl, fun _ => rfl, ?_⟩
  intro d k hk
  simp only [List.mem_cons, List.not_mem_nil, or_false, not_or] at hk
  obtain ⟨h1, h2, h3, h4⟩ := hk
  simp [so_openai_schema_of, Json.get?, dget, h1, h2, h3, h4]

/-- Witness for C9: the introspected key "title" is dropped. -/
theorem convert_schema_exactly_four_keys_witness :
    Json.get?
        (so_openai_schema_of [("title", Json.str "Person")]).json_schema.schema
        "title" = none :=
  convert_schema_exactly_four_keys.2.2 [("title", Json.str "Person")] "title"
    (by decide)

/-- C10: in a model description with a defaulted field (names being
distinct, as field names of a class are), that field's name is among
the keys of the output schema's properties but not in the required
list, which is taken verbatim from the introspected required list. -/
theorem convert_default_field_not_required
    (m : ModelDescription) (f : FieldDecl)
    (hf : f ∈ m.fields) (hd : f.hasDefault = true)
    (hnodup : (m.fields.map FieldDecl.name).Nodup) :
    f.name ∈ Json.objKeys
        ((Json.get? (pydantic_to_so_openai_schema m).json_schema.schema
            "properties").getD (Json.obj [])) ∧
    Json.get? (pydantic_to_so_openai_schema m).json_schema.schema "required"
      = some (Json.arr ((requiredFields m).map Json.str)) ∧
    f.name ∉ requiredFields m := by
  rw [so_schema_eq]
  refine ⟨?_, by simp [Json.get?, dget], ?_⟩
  · simp only [Json.get?, dget]
    simp [Json.objKeys, List.map_map, Function.comp]
    exact ⟨f, hf, rfl⟩
  · intro hmem
    simp only [requiredFields, List.mem_map] at hmem
    obtain ⟨g, hg, hgname⟩ := hmem
    have hgfs : g ∈ m.fields := List.mem_of_mem_filter hg
    have hgdef : g.hasDefault = false := by
      have := List.of_mem_filter hg
      simpa using this
    have : g = f := List.inj_on_of_nodup_map hnodup hgfs hf hgname
    rw [this, hd] at hgdef
    exact Bool.noConfusion hgdef

/-- Witness for C10 at `PersonWithDefault`: its `nickname` field has a
default, appears in properties, and is not required. -/
theorem convert_default_field_not_required_witness :
    "nickname" ∈ Json.objKeys
        ((Json.get?
            (pydantic_to_so_openai_schema PersonWithDefault).json_schema.schema
            "properties").getD (Json.obj [])) ∧
    Json.get?
        (pydantic_to_so_openai_schema PersonWithDefault).json_schema.schema
        "required"
      = some (Json.arr ((requiredFields PersonWithDefault).map Json.str)) ∧
    "nickname" ∉ requiredFields PersonWithDefault :=
  convert_default_field_not_required PersonWithDefault
    { name := "nickname", jsonType := "string", hasDefault := true }
    (by decide) rfl (by decide)

end StructuredOutputs
